import Mathlib

/-!
Shallow embedding of `src/vibrate.py` (Vibration Simulator CLI).

Modelling conventions:
* Standard output is a `List String` of individual writes; `print(x)` becomes
  the write `x ++ "\n"`, and `sys.stdout.write('.')` becomes the write `"."`.
  `time.sleep` produces no output and is dropped.
* Python floats: the only float values in the program are the catalog
  durations 0.1, 0.3, 0.5 and the products `duration * 60`, `duration * 10`,
  all of which are exact in binary floating point rounding (0.1*60, 0.3*60,
  0.5*60 round to exactly 6.0, 18.0, 30.0 and 0.1*10, 0.3*10, 0.5*10 to
  exactly 1.0, 3.0, 5.0), so durations are embedded as exact rationals `ℚ`.
* Python `int(x)` truncates toward zero: `pyTrunc`.
* Python division raises `ZeroDivisionError` on a zero divisor; fallible
  computations are embedded in `Except Unit`, an `Except.error ()` standing
  for an uncaught exception.
* Python `str.upper`, `str.strip` and `str.split(',')` are embedded as
  structurally recursive functions on the character list of the string
  (`pyUpper`, `pyStrip`, `pySplitComma`), with Python's semantics:
  `''.split(',') == ['']`, `'a,,b'.split(',') == ['a','','b']`.
-/

set_option autoImplicit false

/-- Python `int(q)` on a real value: truncation toward zero. -/
def pyTrunc (q : ℚ) : ℤ := if 0 ≤ q then ⌊q⌋ else ⌈q⌉

/-- Python division `a / b`, raising `ZeroDivisionError` when `b = 0`. -/
def pyDiv (a b : ℚ) : Except Unit ℚ :=
  if b = 0 then Except.error () else Except.ok (a / b)

/-- Python string repetition `s * n` (with `n ≤ 0` giving `""` via `toNat`). -/
def strRepeat (s : String) (n : ℕ) : String := String.join (List.replicate n s)

/-- Python `str.upper()` (the intensity names are pure ASCII). -/
def pyUpper (s : String) : String := String.mk (s.data.map Char.toUpper)

/-- Python `str.strip()`: drop whitespace from both ends. -/
def pyStrip (l : List Char) : List Char :=
  ((l.dropWhile Char.isWhitespace).reverse.dropWhile Char.isWhitespace).reverse

/-- Python `str.split(',')` on the character list: `"" ↦ [""]`,
`"a,,b" ↦ ["a","","b"]`. -/
def pySplitComma : List Char → List (List Char)
  | [] => [[]]
  | c :: rest =>
    match pySplitComma rest with
    | [] => [[c]]
    | t :: ts => if c = ',' then [] :: t :: ts else (c :: t) :: ts

/-- The `VibrationIntensity` enum of `vibrate.py` (lines 18-27): a fixed,
closed set of three variants. -/
inductive VibrationIntensity
  | light
  | medium
  | heavy
deriving DecidableEq, Repr

/-- The `intensity_name` member of each enum variant. -/
def intensity_name : VibrationIntensity → String
  | .light => "light"
  | .medium => "medium"
  | .heavy => "heavy"

/-- The `duration` member of each enum variant (0.1 / 0.3 / 0.5 seconds). -/
def duration : VibrationIntensity → ℚ
  | .light => 1 / 10
  | .medium => 3 / 10
  | .heavy => 5 / 10

/-- The `symbol` member of each enum variant (decorative, never printed). -/
def symbol : VibrationIntensity → String
  | .light => "~"
  | .medium => "≈"
  | .heavy => "≋"

/-- The `block` member of each enum variant: the bar fill character. -/
def block : VibrationIntensity → String
  | .light => "░"
  | .medium => "▒"
  | .heavy => "▓"

/-- The `self.colors` dictionary of `VibrationSimulator.__init__`. -/
def colors : List (String × String) :=
  [("reset", "\x1b[0m"), ("blue", "\x1b[94m"), ("green", "\x1b[92m"),
   ("yellow", "\x1b[93m"), ("red", "\x1b[91m"), ("bold", "\x1b[1m"),
   ("purple", "\x1b[95m")]

/-- Python `self.colors.get(color_name, '')`. -/
def colorsGet (color_name : String) : String :=
  (colors.lookup color_name).getD ""

/-- `VibrationSimulator.color`: wrap `text` in the named escape code and the
`reset` code (lines 41-43). -/
def color (text color_name : String) : String :=
  colorsGet color_name ++ text ++ colorsGet "reset"

/-- One iteration of the loop in `_animate_vibration` (lines 77-80): write one
dot, then `time.sleep(duration / steps)`; the division raises
`ZeroDivisionError` when `steps = 0`. -/
def animateIter (d : ℚ) (steps : ℤ) : ℕ → Except Unit (List String)
  | 0 => Except.ok []
  | n + 1 =>
    match pyDiv d (steps : ℚ) with
    | Except.error e => Except.error e
    | Except.ok _ =>
      match animateIter d steps n with
      | Except.error e => Except.error e
      | Except.ok rest => Except.ok ("." :: rest)

/-- `VibrationSimulator._animate_vibration` (lines 74-81): `steps =
int(duration * 10)`; the `for _ in range(steps)` loop runs `steps.toNat`
times; then `print()` emits a bare newline. -/
def animate_vibration (d : ℚ) : Except Unit (List String) :=
  match animateIter d (pyTrunc (d * 10)) (pyTrunc (d * 10)).toNat with
  | Except.error e => Except.error e
  | Except.ok dots => Except.ok (dots ++ ["\n"])

/-- The colored bar computed identically at lines 52-61 (inside `vibrate`) and
lines 91-99 (inside `play_pattern`): `bar_length = int(intensity.duration *
60)`, `bar = intensity.block * bar_length`, colored green / yellow / red by
the `if / elif / else` chain on the variant. -/
def coloredBar (intensity : VibrationIntensity) : String :=
  let bar_length := pyTrunc (duration intensity * 60)
  let bar := strRepeat (block intensity) bar_length.toNat
  if intensity = VibrationIntensity.light then color bar "green"
  else if intensity = VibrationIntensity.medium then color bar "yellow"
  else color bar "red"

/-- The two banner writes at the top of `vibrate` (lines 47-48). -/
def vibrateIntro : List String :=
  [color "🔊 Vibration Simulator" "bold" ++ "\n",
   color (strRepeat "━" 40) "blue" ++ "\n"]

/-- The two closing writes of `vibrate` (lines 71-72). -/
def vibrateOutro : List String :=
  [color (strRepeat "━" 40) "blue" ++ "\n",
   color "✅ Vibration complete!" "green" ++ "\n"]

/-- The numbered step line printed at line 63 of `vibrate`:
`f"[{i}/{count}] {color(name.upper(), 'bold')}: {colored_bar}"`. -/
def vibrateStepLine (intensity : VibrationIntensity) (count i : ℤ) : String :=
  "[" ++ toString i ++ "/" ++ toString count ++ "] " ++
    color (pyUpper (intensity_name intensity)) "bold" ++ ": " ++
    coloredBar intensity ++ "\n"

/-- The `for i in range(1, count + 1)` loop of `vibrate` (lines 50-69),
counting down the remaining iterations; each iteration prints the step line
and runs the animation (the inter-step `time.sleep(0.2)` writes nothing). -/
def vibrateLoop (intensity : VibrationIntensity) (count i : ℤ) :
    ℕ → Except Unit (List String)
  | 0 => Except.ok []
  | n + 1 =>
    match animate_vibration (duration intensity) with
    | Except.error e => Except.error e
    | Except.ok anim =>
      match vibrateLoop intensity count (i + 1) n with
      | Except.error e => Except.error e
      | Except.ok rest =>
        Except.ok ((vibrateStepLine intensity count i :: anim) ++ rest)

/-- `VibrationSimulator.vibrate` (lines 45-72): banner, `count` numbered
steps (the loop runs `max count 0` times, starting at `i = 1`), closing
banner. -/
def vibrate (intensity : VibrationIntensity) (count : ℤ) :
    Except Unit (List String) :=
  match vibrateLoop intensity count 1 count.toNat with
  | Except.error e => Except.error e
  | Except.ok body => Except.ok (vibrateIntro ++ body ++ vibrateOutro)

/-- The two banner writes at the top of `play_pattern` (lines 85-86). -/
def patternIntro : List String :=
  [color "🎵 Playing vibration pattern..." "purple" ++ "\n",
   color (strRepeat "━" 40) "blue" ++ "\n"]

/-- The two closing writes of `play_pattern` (lines 107-108); note the source
repeats the two-character string `"\n━"` forty times. -/
def patternOutro : List String :=
  [color (strRepeat "\n━" 40) "blue" ++ "\n",
   color "✅ Pattern complete!" "green" ++ "\n"]

/-- The step header printed at line 89 of `play_pattern`:
`color(f"\nStep {index + 1}/{len(pattern)}: {name}", 'bold')`. -/
def stepHeaderLine (n index : ℕ) (intensity : VibrationIntensity) : String :=
  color ("\nStep " ++ toString (index + 1) ++ "/" ++ toString n ++ ": " ++
    intensity_name intensity) "bold" ++ "\n"

/-- The `for index, intensity in enumerate(pattern)` loop of `play_pattern`
(lines 88-105): header, bar line, animation (the inter-step
`time.sleep(0.3)` writes nothing). -/
def patternLoop (n index : ℕ) :
    List VibrationIntensity → Except Unit (List String)
  | [] => Except.ok []
  | intensity :: rest =>
    match animate_vibration (duration intensity) with
    | Except.error e => Except.error e
    | Except.ok anim =>
      match patternLoop n (index + 1) rest with
      | Except.error e => Except.error e
      | Except.ok r =>
        Except.ok ((stepHeaderLine n index intensity ::
          (coloredBar intensity ++ "\n") :: anim) ++ r)

/-- `VibrationSimulator.play_pattern` (lines 83-108). -/
def play_pattern (pattern : List VibrationIntensity) :
    Except Unit (List String) :=
  match patternLoop pattern.length 0 pattern with
  | Except.error e => Except.error e
  | Except.ok body => Except.ok (patternIntro ++ body ++ patternOutro)

/-- The arguments `main` receives from `argparse.parse_args()`:
`--intensity` (a string; `argparse` has already restricted it to the choice
set when the real CLI is used), `--count` (a Python int), `--pattern`
(absent or a string). -/
structure Args where
  intensity : String
  count : ℤ
  pattern : Option String
deriving DecidableEq, Repr

/-- Observable result of a run: the sequence of stdout writes and the
process exit code. -/
structure RunResult where
  output : List String
  exitCode : ℕ
deriving DecidableEq, Repr

-- Decidable equality for `Except`, so that concrete parse and run results
-- can be checked by `decide`.
deriving instance DecidableEq for Except

/-- The count-validation error print of `main` (line 149). -/
def countErrorLine : String := "❌ Error: Count must be a positive number\n"

/-- The pattern-validation error print of `main` (line 165):
`f"❌ Error: Invalid intensity '{name}' in pattern"`. -/
def patternErrorLine (name : String) : String :=
  "❌ Error: Invalid intensity \x27" ++ name ++ "\x27 in pattern\n"

/-- Line 154 of `main`: `[p.strip() for p in args.pattern.split(',')]`. -/
def patternTokens (s : String) : List String :=
  (pySplitComma s.data).map (fun cs => String.mk (pyStrip cs))

/-- The token-validation loop of `main` (lines 157-166): build the intensity
list in order, stopping with an error naming the first token that is none of
the three known names. -/
def parsePattern : List String → Except String (List VibrationIntensity)
  | [] => Except.ok []
  | name :: rest =>
    if name = "light" then
      (parsePattern rest).map (fun l => VibrationIntensity.light :: l)
    else if name = "medium" then
      (parsePattern rest).map (fun l => VibrationIntensity.medium :: l)
    else if name = "heavy" then
      (parsePattern rest).map (fun l => VibrationIntensity.heavy :: l)
    else Except.error name

/-- The `intensity_map` dictionary of `main` (lines 171-175). -/
def intensity_map : List (String × VibrationIntensity) :=
  [("light", VibrationIntensity.light), ("medium", VibrationIntensity.medium),
   ("heavy", VibrationIntensity.heavy)]

/-- The single-intensity branch of `main` (lines 170-178). The dictionary
lookup cannot miss when the arguments come from `argparse` (the choice set
equals the dictionary keys); a miss would be an uncaught `KeyError`, i.e. a
crash with empty stdout and exit status 1, modelled by the `none` arm. -/
def singleMode (args : Args) : RunResult :=
  match intensity_map.lookup args.intensity with
  | some intensity =>
    match vibrate intensity args.count with
    | Except.ok out => { output := out, exitCode := 0 }
    | Except.error _ => { output := [], exitCode := 1 }
  | none => { output := [], exitCode := 1 }

/-- `main` after `parse_args` (lines 145-178): count validation first
(lines 148-150), then the `if args.pattern:` dispatch — Python truthiness,
so `None` and `""` both select the single-intensity branch — then pattern
validation and playback. An `Except.error` escaping a renderer would be an
uncaught exception: crash with exit status 1. -/
def mainRun (args : Args) : RunResult :=
  if args.count < 1 then { output := [countErrorLine], exitCode := 1 }
  else
    match args.pattern with
    | some s =>
      if s = "" then singleMode args
      else
        match parsePattern (patternTokens s) with
        | Except.error name =>
          { output := [patternErrorLine name], exitCode := 1 }
        | Except.ok pattern =>
          match play_pattern pattern with
          | Except.ok out => { output := out, exitCode := 0 }
          | Except.error _ => { output := [], exitCode := 1 }
    | none => singleMode args

/-- The `choices` list of the `--intensity` argument (line 125). -/
def argparseChoices : List String := ["light", "medium", "heavy"]

/-- Modelled from the spec: the command-line parsing collaborator
(`argparse`, not part of this repository's sources) which the spec describes
as rejecting an `--intensity` value outside the fixed choice set "with its
own standard error message and non-zero exit" before reaching program logic.
The standard behavior of that collaborator (`ArgumentParser.error`) is to
print usage to stderr and terminate the process with exit status 2, writing
nothing to stdout; a value inside the choice set is passed through to
`main`. -/
def programRun (intensity : String) (count : ℤ) (pattern : Option String) :
    RunResult :=
  if intensity ∈ argparseChoices then
    mainRun { intensity := intensity, count := count, pattern := pattern }
  else { output := [], exitCode := 2 }

/-- The resolved stdout writes of one `_animate_vibration` call for a catalog
intensity; used to state the per-step output chunks of `play_pattern`. -/
def animationDots (intensity : VibrationIntensity) : List String :=
  List.replicate (pyTrunc (duration intensity * 10)).toNat "." ++ ["\n"]

/-- The stdout writes of one iteration of the `play_pattern` loop. -/
def patternChunk (n index : ℕ) (intensity : VibrationIntensity) : List String :=
  stepHeaderLine n index intensity :: (coloredBar intensity ++ "\n") ::
    animationDots intensity

/-! ## Arithmetic helper lemmas -/

theorem pyTrunc_intCast (z : ℤ) : pyTrunc (z : ℚ) = z := by
  unfold pyTrunc
  split <;> simp

theorem pyTrunc_eq_floor {q : ℚ} (h : 0 ≤ q) : pyTrunc q = ⌊q⌋ :=
  if_pos h

theorem trunc60_light : pyTrunc (duration VibrationIntensity.light * 60) = 6 := by
  have h : duration VibrationIntensity.light * 60 = ((6 : ℤ) : ℚ) := by
    norm_num [duration]
  rw [h, pyTrunc_intCast]

theorem trunc60_medium : pyTrunc (duration VibrationIntensity.medium * 60) = 18 := by
  have h : duration VibrationIntensity.medium * 60 = ((18 : ℤ) : ℚ) := by
    norm_num [duration]
  rw [h, pyTrunc_intCast]

theorem trunc60_heavy : pyTrunc (duration VibrationIntensity.heavy * 60) = 30 := by
  have h : duration VibrationIntensity.heavy * 60 = ((30 : ℤ) : ℚ) := by
    norm_num [duration]
  rw [h, pyTrunc_intCast]

theorem trunc10_light : pyTrunc (duration VibrationIntensity.light * 10) = 1 := by
  have h : duration VibrationIntensity.light * 10 = ((1 : ℤ) : ℚ) := by
    norm_num [duration]
  rw [h, pyTrunc_intCast]

theorem trunc10_medium : pyTrunc (duration VibrationIntensity.medium * 10) = 3 := by
  have h : duration VibrationIntensity.medium * 10 = ((3 : ℤ) : ℚ) := by
    norm_num [duration]
  rw [h, pyTrunc_intCast]

theorem trunc10_heavy : pyTrunc (duration VibrationIntensity.heavy * 10) = 5 := by
  have h : duration VibrationIntensity.heavy * 10 = ((5 : ℤ) : ℚ) := by
    norm_num [duration]
  rw [h, pyTrunc_intCast]

/-! ## Animation helper lemmas -/

theorem animateIter_of_ne (d : ℚ) {steps : ℤ} (h : steps ≠ 0) :
    ∀ n : ℕ, animateIter d steps n = Except.ok (List.replicate n ".") := by
  intro n
  induction n with
  | zero => rfl
  | succ n ih =>
    have hq : ((steps : ℚ)) ≠ 0 := Int.cast_ne_zero.mpr h
    simp [animateIter, pyDiv, hq, ih, List.replicate_succ]

theorem animate_vibration_eq (d : ℚ) :
    animate_vibration d =
      Except.ok (List.replicate (pyTrunc (d * 10)).toNat "." ++ ["\n"]) := by
  unfold animate_vibration
  rcases hn : (pyTrunc (d * 10)).toNat with _ | n
  · simp [hn, animateIter]
  · have hpos : 0 < pyTrunc (d * 10) := by
      by_contra hle
      push_neg at hle
      have : (pyTrunc (d * 10)).toNat = 0 := Int.toNat_of_nonpos hle
      omega
    have hne : pyTrunc (d * 10) ≠ 0 := ne_of_gt hpos
    rw [hn] at *
    simp [animateIter_of_ne d hne]

theorem animate_light :
    animate_vibration (duration VibrationIntensity.light) =
      Except.ok [".", "\n"] := by
  rw [animate_vibration_eq, trunc10_light]
  rfl

theorem animate_medium :
    animate_vibration (duration VibrationIntensity.medium) =
      Except.ok [".", ".", ".", "\n"] := by
  rw [animate_vibration_eq, trunc10_medium]
  rfl

theorem animate_heavy :
    animate_vibration (duration VibrationIntensity.heavy) =
      Except.ok [".", ".", ".", ".", ".", "\n"] := by
  rw [animate_vibration_eq, trunc10_heavy]
  rfl

/-- The three animations in one statement, for case analysis. -/
theorem animate_intensity (intensity : VibrationIntensity) :
    animate_vibration (duration intensity) =
      Except.ok (List.replicate (pyTrunc (duration intensity * 10)).toNat "."
        ++ ["\n"]) :=
  animate_vibration_eq (duration intensity)

/-! ## Bar helper lemmas -/

theorem coloredBar_light :
    coloredBar VibrationIntensity.light = color (strRepeat "░" 6) "green" := by
  unfold coloredBar
  rw [trunc60_light]
  rfl

theorem coloredBar_medium :
    coloredBar VibrationIntensity.medium = color (strRepeat "▒" 18) "yellow" := by
  unfold coloredBar
  rw [trunc60_medium]
  rfl

theorem coloredBar_heavy :
    coloredBar VibrationIntensity.heavy = color (strRepeat "▓" 30) "red" := by
  unfold coloredBar
  rw [trunc60_heavy]
  rfl

/-! ## Renderer helper lemmas -/

theorem vibrateLoop_ok (intensity : VibrationIntensity) (count : ℤ) :
    ∀ (n : ℕ) (i : ℤ), ∃ out,
      vibrateLoop intensity count i n = Except.ok out := by
  intro n
  induction n with
  | zero => exact fun i => ⟨[], rfl⟩
  | succ n ih =>
    intro i
    obtain ⟨rest, hrest⟩ := ih (i + 1)
    refine ⟨(vibrateStepLine intensity count i ::
      (List.replicate (pyTrunc (duration intensity * 10)).toNat "." ++ ["\n"]))
        ++ rest, ?_⟩
    simp [vibrateLoop, animate_intensity, hrest]

theorem vibrate_shape (intensity : VibrationIntensity) (count : ℤ) :
    ∃ rest, vibrate intensity count = Except.ok (vibrateIntro ++ rest) := by
  obtain ⟨body, hbody⟩ := vibrateLoop_ok intensity count count.toNat 1
  exact ⟨body ++ vibrateOutro, by simp [vibrate, hbody]⟩

theorem patternLoop_eq (n : ℕ) :
    ∀ (l : List VibrationIntensity) (index : ℕ),
      patternLoop n index l =
        Except.ok (((l.enumFrom index).map
          (fun p => patternChunk n p.1 p.2)).flatten) := by
  intro l
  induction l with
  | nil => intro index; rfl
  | cons intensity rest ih =>
    intro index
    simp [patternLoop, animate_intensity, ih (index + 1), List.enumFrom,
      patternChunk, animationDots]

theorem play_pattern_eq (l : List VibrationIntensity) :
    play_pattern l =
      Except.ok (patternIntro ++
        ((l.enum.map (fun p => patternChunk l.length p.1 p.2)).flatten) ++
        patternOutro) := by
  simp [play_pattern, patternLoop_eq, List.enum]

/-! ## Pattern validation helper lemmas -/

theorem parsePattern_error_of_invalid :
    ∀ l : List String, (∃ t ∈ l, t ∉ argparseChoices) →
      ∃ t, t ∈ l ∧ t ∉ argparseChoices ∧ parsePattern l = Except.error t := by
  intro l
  induction l with
  | nil => rintro ⟨t, ht, _⟩; exact absurd ht (List.not_mem_nil t)
  | cons name rest ih =>
    rintro ⟨t, ht, hinv⟩
    by_cases h1 : name = "light"
    · have hrest : ∃ t ∈ rest, t ∉ argparseChoices := by
        rcases List.mem_cons.mp ht with h | h
        · exact absurd (h ▸ h1) (by subst h1; intro hc; exact hinv (hc ▸ by decide))
        · exact ⟨t, h, hinv⟩
      obtain ⟨u, hu, huinv, herr⟩ := ih hrest
      exact ⟨u, List.mem_cons_of_mem _ hu, huinv, by simp [parsePattern, h1, herr, Except.map]⟩
    · by_cases h2 : name = "medium"
      · have hrest : ∃ t ∈ rest, t ∉ argparseChoices := by
          rcases List.mem_cons.mp ht with h | h
          · subst h; subst h2; exact absurd (by decide) hinv
          · exact ⟨t, h, hinv⟩
        obtain ⟨u, hu, huinv, herr⟩ := ih hrest
        exact ⟨u, List.mem_cons_of_mem _ hu, huinv,
          by simp [parsePattern, h1, h2, herr, Except.map]⟩
      · by_cases h3 : name = "heavy"
        · have hrest : ∃ t ∈ rest, t ∉ argparseChoices := by
            rcases List.mem_cons.mp ht with h | h
            · subst h; subst h3; exact absurd (by decide) hinv
            · exact ⟨t, h, hinv⟩
          obtain ⟨u, hu, huinv, herr⟩ := ih hrest
          exact ⟨u, List.mem_cons_of_mem _ hu, huinv,
            by simp [parsePattern, h1, h2, h3, herr, Except.map]⟩
        · refine ⟨name, List.mem_cons_self _ _, ?_, by simp [parsePattern, h1, h2, h3]⟩
          simp [argparseChoices, h1, h2, h3]

theorem parsePattern_error_mem :
    ∀ (l : List String) (t : String), parsePattern l = Except.error t →
      t ∈ l ∧ t ∉ argparseChoices := by
  intro l
  induction l with
  | nil => intro t ht; exact absurd ht (by simp [parsePattern])
  | cons name rest ih =>
    intro t ht
    by_cases h1 : name = "light"
    · rw [parsePattern, if_pos h1] at ht
      rcases hr : parsePattern rest with u | pl
      · rw [hr] at ht
        obtain ⟨hm, hi⟩ := ih u (by rw [hr])
        cases ht
        exact ⟨List.mem_cons_of_mem _ hm, hi⟩
      · rw [hr] at ht; exact absurd ht (by simp [Except.map])
    · by_cases h2 : name = "medium"
      · rw [parsePattern, if_neg h1, if_pos h2] at ht
        rcases hr : parsePattern rest with u | pl
        · rw [hr] at ht
          obtain ⟨hm, hi⟩ := ih u (by rw [hr])
          cases ht
          exact ⟨List.mem_cons_of_mem _ hm, hi⟩
        · rw [hr] at ht; exact absurd ht (by simp [Except.map])
      · by_cases h3 : name = "heavy"
        · rw [parsePattern, if_neg h1, if_neg h2, if_pos h3] at ht
          rcases hr : parsePattern rest with u | pl
          · rw [hr] at ht
            obtain ⟨hm, hi⟩ := ih u (by rw [hr])
            cases ht
            exact ⟨List.mem_cons_of_mem _ hm, hi⟩
          · rw [hr] at ht; exact absurd ht (by simp [Except.map])
        · rw [parsePattern, if_neg h1, if_neg h2, if_neg h3] at ht
          cases ht
          exact ⟨List.mem_cons_self _ _, by simp [argparseChoices, h1, h2, h3]⟩

/-! ## Dispatch helper lemmas -/

theorem lookup_light :
    intensity_map.lookup "light" = some VibrationIntensity.light := by decide

theorem lookup_medium :
    intensity_map.lookup "medium" = some VibrationIntensity.medium := by decide

theorem lookup_heavy :
    intensity_map.lookup "heavy" = some VibrationIntensity.heavy := by decide

theorem singleMode_ok (args : Args) (h : args.intensity ∈ argparseChoices) :
    (singleMode args).exitCode = 0 ∧
      (singleMode args).output.take 2 = vibrateIntro := by
  rcases show args.intensity = "light" ∨ args.intensity = "medium" ∨
      args.intensity = "heavy" by simpa [argparseChoices] using h with h1 | h1 | h1
  · obtain ⟨rest, hv⟩ := vibrate_shape VibrationIntensity.light args.count
    rw [singleMode, h1, lookup_light]
    simp [hv, vibrateIntro]
  · obtain ⟨rest, hv⟩ := vibrate_shape VibrationIntensity.medium args.count
    rw [singleMode, h1, lookup_medium]
    simp [hv, vibrateIntro]
  · obtain ⟨rest, hv⟩ := vibrate_shape VibrationIntensity.heavy args.count
    rw [singleMode, h1, lookup_heavy]
    simp [hv, vibrateIntro]

theorem play_pattern_medium :
    play_pattern [VibrationIntensity.medium] =
      Except.ok (patternIntro ++ patternChunk 1 0 VibrationIntensity.medium ++
        patternOutro) := by
  have h := play_pattern_eq [VibrationIntensity.medium]
  simpa [List.enum, List.enumFrom] using h

theorem vibrateLoop_medium_one :
    vibrateLoop VibrationIntensity.medium 1 1 1 =
      Except.ok (vibrateStepLine VibrationIntensity.medium 1 1 ::
        [".", ".", ".", "\n"]) := by
  simp [vibrateLoop, animate_medium]

theorem vibrate_medium_one :
    vibrate VibrationIntensity.medium 1 =
      Except.ok (vibrateIntro ++
        (vibrateStepLine VibrationIntensity.medium 1 1 ::
          [".", ".", ".", "\n"]) ++ vibrateOutro) := by
  rw [vibrate, show ((1 : ℤ)).toNat = 1 from rfl, vibrateLoop_medium_one]

theorem mainRun_medium_one_empty :
    mainRun { intensity := "medium", count := 1, pattern := some "" } =
      { output := vibrateIntro ++
          (vibrateStepLine VibrationIntensity.medium 1 1 ::
            [".", ".", ".", "\n"]) ++ vibrateOutro,
        exitCode := 0 } := by
  simp [mainRun, singleMode, lookup_medium, vibrate_medium_one]

/-! ## Claim theorems -/

/-- C1 (counterexample): the original claim is false — a count value less
than 1 does prevent pattern playback. With the valid pattern string "light"
and `--count 0` the program prints only the count error and exits with
code 1; the pattern banner (the first write of `play_pattern`) never
appears in the output. -/
theorem c1_counterexample :
    mainRun { intensity := "medium", count := 0, pattern := some "light" } =
      { output := [countErrorLine], exitCode := 1 } ∧
    (color "🎵 Playing vibration pattern..." "purple" ++ "\n") ∉
      (mainRun { intensity := "medium", count := 0, pattern := some "light" }).output := by
  constructor
  · decide
  · decide

/-- C1 (amended): if `--pattern` is supplied non-empty and `count ≥ 1`
(the count validation at lines 148-150 runs before the pattern dispatch),
the pattern is played and the result is independent of the values of
`--intensity` and `--count`. -/
theorem c1_pattern_precedence (i i2 : String) (c c2 : ℤ) (s : String)
    (hc : 1 ≤ c) (hc2 : 1 ≤ c2) (hs : s ≠ "")
    (pat : List VibrationIntensity)
    (hp : parsePattern (patternTokens s) = Except.ok pat)
    (out : List String) (ho : play_pattern pat = Except.ok out) :
    mainRun { intensity := i, count := c, pattern := some s } =
      { output := out, exitCode := 0 } ∧
    mainRun { intensity := i, count := c, pattern := some s } =
      mainRun { intensity := i2, count := c2, pattern := some s } := by
  have hc' : ¬(c < 1) := by omega
  have hc2' : ¬(c2 < 1) := by omega
  constructor
  · simp [mainRun, hc', hs, hp, ho]
  · simp [mainRun, hc', hc2', hs, hp, ho]

/-- C1 (witness): the amended claim at `--pattern medium`, with differing
intensities and counts on the two sides. -/
theorem c1_witness :
    mainRun { intensity := "light", count := 1, pattern := some "medium" } =
      { output := patternIntro ++
          patternChunk 1 0 VibrationIntensity.medium ++ patternOutro,
        exitCode := 0 } ∧
    mainRun { intensity := "light", count := 1, pattern := some "medium" } =
      mainRun { intensity := "heavy", count := 2, pattern := some "medium" } :=
  c1_pattern_precedence "light" "heavy" 1 2 "medium" (by decide) (by decide)
    (by decide) [VibrationIntensity.medium] (by decide)
    (patternIntro ++ patternChunk 1 0 VibrationIntensity.medium ++
      patternOutro) play_pattern_medium

/-- C2 (counterexample): an `--intensity` value outside the choice set is
rejected by the `argparse` collaborator, whose standard error path
terminates the process with exit status 2, not 1 as the claim states. -/
theorem c2_counterexample :
    (programRun "loud" 1 none).exitCode = 2 ∧
      (programRun "loud" 1 none).exitCode ≠ 1 := by
  constructor
  · decide
  · decide

/-- C2 (amended): exit code 0 on normal completion (both single-intensity
and pattern mode), 1 when `count < 1` and when an unknown token appears in
`--pattern`, and 2 (the argparse collaborator's standard error status) when
`--intensity` receives a value outside \x7blight, medium, heavy\x7d. -/
theorem c2_exit_codes :
    (∀ (i : String) (c : ℤ) (p : Option String),
      i ∈ argparseChoices → c < 1 →
      programRun i c p = { output := [countErrorLine], exitCode := 1 }) ∧
    (∀ (i : String) (c : ℤ) (s t : String),
      i ∈ argparseChoices → 1 ≤ c → s ≠ "" →
      parsePattern (patternTokens s) = Except.error t →
      programRun i c (some s) =
        { output := [patternErrorLine t], exitCode := 1 }) ∧
    (∀ (i : String) (c : ℤ), i ∈ argparseChoices → 1 ≤ c →
      (programRun i c none).exitCode = 0) ∧
    (∀ (i : String) (c : ℤ) (s : String) (pat : List VibrationIntensity),
      i ∈ argparseChoices → 1 ≤ c → s ≠ "" →
      parsePattern (patternTokens s) = Except.ok pat →
      (programRun i c (some s)).exitCode = 0) ∧
    (∀ (i : String) (c : ℤ) (p : Option String), i ∉ argparseChoices →
      (programRun i c p).exitCode = 2) := by
  refine ⟨?_, ?_, ?_, ?_, ?_⟩
  · intro i c p hmem hc
    simp [programRun, hmem, mainRun, hc]
  · intro i c s t hmem hc hs herr
    have hc' : ¬(c < 1) := by omega
    simp [programRun, hmem, mainRun, hc', hs, herr]
  · intro i c hmem hc
    have hc' : ¬(c < 1) := by omega
    have h0 := (singleMode_ok { intensity := i, count := c, pattern := none }
      hmem).1
    simp only [programRun, hmem, if_true, mainRun, hc', if_false]
    exact h0
  · intro i c s pat hmem hc hs hp
    have hc' : ¬(c < 1) := by omega
    simp [programRun, hmem, mainRun, hc', hs, hp, play_pattern_eq]
  · intro i c p hmem
    simp [programRun, hmem]

/-- C2 (witness): one concrete instance of each of the five cases. -/
theorem c2_witness :
    programRun "medium" 0 none = { output := [countErrorLine], exitCode := 1 } ∧
    programRun "medium" 1 (some "light,bogus,heavy") =
      { output := [patternErrorLine "bogus"], exitCode := 1 } ∧
    (programRun "light" 1 none).exitCode = 0 ∧
    (programRun "light" 1 (some "heavy")).exitCode = 0 ∧
    (programRun "loud" 1 none).exitCode = 2 :=
  ⟨c2_exit_codes.1 "medium" 0 none (by decide) (by decide),
   c2_exit_codes.2.1 "medium" 1 "light,bogus,heavy" "bogus" (by decide)
     (by decide) (by decide) (by decide),
   c2_exit_codes.2.2.1 "light" 1 (by decide) (by decide),
   c2_exit_codes.2.2.2.1 "light" 1 "heavy" [VibrationIntensity.heavy]
     (by decide) (by decide) (by decide) (by decide),
   c2_exit_codes.2.2.2.2 "loud" 1 none (by decide)⟩

/-- C3: the rendered bar is the intensity's fill character repeated exactly
`int(duration * 60)` times — 6 for light, 18 for medium, 30 for heavy.
`coloredBar` is the shared embedding of the identical bar construction at
lines 52-61 (inside `vibrate`, used by `vibrateStepLine`) and lines 91-99
(inside `play_pattern`, used by `patternLoop`), so the equations cover both
renderers. -/
theorem c3_bar_lengths :
    coloredBar VibrationIntensity.light =
      color (strRepeat (block VibrationIntensity.light) 6) "green" ∧
    coloredBar VibrationIntensity.medium =
      color (strRepeat (block VibrationIntensity.medium) 18) "yellow" ∧
    coloredBar VibrationIntensity.heavy =
      color (strRepeat (block VibrationIntensity.heavy) 30) "red" ∧
    pyTrunc (duration VibrationIntensity.light * 60) = 6 ∧
    pyTrunc (duration VibrationIntensity.medium * 60) = 18 ∧
    pyTrunc (duration VibrationIntensity.heavy * 60) = 30 :=
  ⟨coloredBar_light, coloredBar_medium, coloredBar_heavy,
   trunc60_light, trunc60_medium, trunc60_heavy⟩

/-- C4: for every nonnegative duration, `_animate_vibration` writes exactly
`steps = floor(duration * 10)` dots followed by a single newline; for the
catalog durations the dot counts are 1 (light), 3 (medium) and 5 (heavy),
so each repetition rendered by `vibrate` is followed by that many dots. -/
theorem c4_animation_steps :
    (∀ d : ℚ, 0 ≤ d →
      animate_vibration d =
        Except.ok (List.replicate (⌊d * 10⌋).toNat "." ++ ["\n"])) ∧
    animate_vibration (duration VibrationIntensity.light) =
      Except.ok (List.replicate 1 "." ++ ["\n"]) ∧
    animate_vibration (duration VibrationIntensity.medium) =
      Except.ok (List.replicate 3 "." ++ ["\n"]) ∧
    animate_vibration (duration VibrationIntensity.heavy) =
      Except.ok (List.replicate 5 "." ++ ["\n"]) := by
  refine ⟨fun d hd => ?_, ?_, ?_, ?_⟩
  · have h10 : (0 : ℚ) ≤ d * 10 := by positivity
    rw [animate_vibration_eq, pyTrunc_eq_floor h10]
  · rw [animate_light]; rfl
  · rw [animate_medium]; rfl
  · rw [animate_heavy]; rfl

/-- C4 (witness): the general statement at the concrete duration 2 seconds:
20 dots and a newline. -/
theorem c4_witness :
    animate_vibration 2 = Except.ok (List.replicate 20 "." ++ ["\n"]) := by
  have h := c4_animation_steps.1 2 (by norm_num)
  have h20 : ⌊(2 : ℚ) * 10⌋ = 20 := by
    rw [show (2 : ℚ) * 10 = ((20 : ℤ) : ℚ) by norm_num, Int.floor_intCast]
  rwa [h20] at h

/-- C5: whenever `floor(duration * 10) = 0` the animation loop performs zero
iterations and the routine emits only the trailing newline; the result is
`Except.ok`, i.e. the division `duration / steps` inside the loop body is
never evaluated and no `ZeroDivisionError` is raised. -/
theorem c5_zero_steps (d : ℚ) (h : ⌊d * 10⌋ = 0) :
    animate_vibration d = Except.ok ["\n"] := by
  have h0 : (0 : ℚ) ≤ d * 10 := by
    have := Int.floor_nonneg.mp (le_of_eq h.symm)
    exact this
  rw [animate_vibration_eq, pyTrunc_eq_floor h0, h]
  rfl

/-- C5 (witness): duration 0 has `floor(0 * 10) = 0` and yields only the
newline. -/
theorem c5_witness :
    ⌊(0 : ℚ) * 10⌋ = 0 ∧ animate_vibration 0 = Except.ok ["\n"] :=
  ⟨by simp, c5_zero_steps 0 (by simp)⟩

/-- C6: for every argument record with `count < 1` the program prints
exactly the count error line (no rendering output at all) and exits with
code 1, whatever the other arguments are; for every `count ≥ 1` in
single-intensity mode the check passes: the exit code is 0 and the output
begins with the `vibrate` banner, i.e. rendering proceeds. -/
theorem c6_count_validation :
    (∀ args : Args, args.count < 1 →
      mainRun args = { output := [countErrorLine], exitCode := 1 }) ∧
    (∀ (i : String) (c : ℤ), i ∈ argparseChoices → 1 ≤ c →
      (mainRun { intensity := i, count := c, pattern := none }).exitCode = 0 ∧
      (mainRun { intensity := i, count := c, pattern := none }).output.take 2 = vibrateIntro) := by
  constructor
  · intro args h
    simp [mainRun, h]
  · intro i c hmem hc
    have hc' : ¬(c < 1) := by omega
    have h0 := singleMode_ok { intensity := i, count := c, pattern := none }
      hmem
    simpa [mainRun, hc'] using h0

/-- C6 (witness): `count = 0` yields the error with exit 1; `count = 2` with
intensity light passes the check and renders. -/
theorem c6_witness :
    mainRun { intensity := "light", count := 0, pattern := none } =
      { output := [countErrorLine], exitCode := 1 } ∧
    (mainRun { intensity := "light", count := 2, pattern := none }).exitCode
      = 0 ∧
    (mainRun { intensity := "light", count := 2, pattern := none }).output.take 2 = vibrateIntro :=
  ⟨c6_count_validation.1 _ (by decide),
   (c6_count_validation.2 "light" 2 (by decide) (by decide)).1,
   (c6_count_validation.2 "light" 2 (by decide) (by decide)).2⟩

/-- C7 (counterexample): the original claim quantifies over every pattern
string containing an invalid token after trimming, but the empty string is
such a string (its single token is `""`, which is not a known name) and the
program neither errors nor exits 1 on it: the truthiness dispatch at line
153 silently falls back to single-intensity mode and exits 0. -/
theorem c7_counterexample :
    "" ∈ patternTokens "" ∧ "" ∉ argparseChoices ∧
    (mainRun { intensity := "medium", count := 1, pattern := some "" }).exitCode = 0 ∧
    patternErrorLine "" ∉
      (mainRun { intensity := "medium", count := 1, pattern := some "" }).output := by
  refine ⟨by decide, by decide, ?_, ?_⟩
  · rw [mainRun_medium_one_empty]
  · rw [mainRun_medium_one_empty]
    simp only [vibrateIntro, vibrateOutro, vibrateStepLine, coloredBar_medium]
    decide

/-- C7 (amended): for every NON-EMPTY pattern string containing a token
(after trimming) that is not one of the three known names, validation is
atomic: some invalid token of the string is reported (the first one, by the
parse loop) and the run's entire output is that single error line with exit
code 1 — no rendering output for any token, valid or not. The first
conjunct shows the token loop fails whenever an invalid token exists; the
second shows any parse failure names a genuine invalid member token and
produces exactly the error line. -/
theorem c7_pattern_validation :
    (∀ l : List String, (∃ t ∈ l, t ∉ argparseChoices) →
      ∃ t, t ∈ l ∧ t ∉ argparseChoices ∧ parsePattern l = Except.error t) ∧
    (∀ (i : String) (c : ℤ) (s t : String), 1 ≤ c → s ≠ "" →
      parsePattern (patternTokens s) = Except.error t →
      t ∈ patternTokens s ∧ t ∉ argparseChoices ∧
      mainRun { intensity := i, count := c, pattern := some s } =
        { output := [patternErrorLine t], exitCode := 1 }) := by
  constructor
  · exact parsePattern_error_of_invalid
  · intro i c s t hc hs herr
    obtain ⟨hm, hi⟩ := parsePattern_error_mem _ t herr
    have hc' : ¬(c < 1) := by omega
    exact ⟨hm, hi, by simp [mainRun, hc', hs, herr]⟩

/-- C7 (witness): the spec's own example `light,bogus,heavy` is rejected
naming `bogus`, with the error line as the only output. -/
theorem c7_witness :
    mainRun { intensity := "medium", count := 1, pattern := some "light,bogus,heavy" } =
      { output := [patternErrorLine "bogus"], exitCode := 1 } ∧
    "bogus" ∈ patternTokens "light,bogus,heavy" ∧
    "bogus" ∉ argparseChoices := by
  obtain ⟨hm, hi, heq⟩ := c7_pattern_validation.2 "medium" 1
    "light,bogus,heavy" "bogus" (by decide) (by decide) (by decide)
  exact ⟨heq, hm, hi⟩

/-- C8: for every non-empty pattern, `play_pattern`'s output is the intro
banner, then one chunk per element in exactly the input order — the chunk
of the element at 0-based index `idx` begins with the header
`stepHeaderLine`, which prints `Step (idx+1)/N: name` for that element's
name — then the outro banner. -/
theorem c8_pattern_order (pat : List VibrationIntensity) (_hne : pat ≠ []) :
    play_pattern pat =
      Except.ok (patternIntro ++
        ((pat.enum.map (fun p => patternChunk pat.length p.1 p.2)).flatten) ++
        patternOutro) ∧
    ∀ p ∈ pat.enum, (patternChunk pat.length p.1 p.2).head? =
      some (stepHeaderLine pat.length p.1 p.2) :=
  ⟨play_pattern_eq pat, fun _ _ => rfl⟩

/-- C8 (witness): the spec's example `[light, heavy]`: the output is the
in-order concatenation of the light chunk (headed `Step 1/2: light`) and
the heavy chunk (headed `Step 2/2: heavy`). -/
theorem c8_witness :
    play_pattern [VibrationIntensity.light, VibrationIntensity.heavy] =
      Except.ok (patternIntro ++
        (([(0, VibrationIntensity.light),
           (1, VibrationIntensity.heavy)].map
          (fun p => patternChunk 2 p.1 p.2)).flatten) ++ patternOutro) ∧
    (patternChunk 2 0 VibrationIntensity.light).head? =
      some (stepHeaderLine 2 0 VibrationIntensity.light) ∧
    (patternChunk 2 1 VibrationIntensity.heavy).head? =
      some (stepHeaderLine 2 1 VibrationIntensity.heavy) ∧
    stepHeaderLine 2 0 VibrationIntensity.light =
      color ("\nStep " ++ "1" ++ "/" ++ "2" ++ ": " ++ "light") "bold"
        ++ "\n" ∧
    stepHeaderLine 2 1 VibrationIntensity.heavy =
      color ("\nStep " ++ "2" ++ "/" ++ "2" ++ ": " ++ "heavy") "bold"
        ++ "\n" := by
  have h := c8_pattern_order
    [VibrationIntensity.light, VibrationIntensity.heavy] (by decide)
  refine ⟨h.1, h.2 (0, VibrationIntensity.light) (by decide),
    h.2 (1, VibrationIntensity.heavy) (by decide), by decide, by decide⟩

/-- C9: the run result is a pure function of the parsed arguments — two
runs with equal arguments produce identical write sequences and exit codes,
both for `main`'s logic and for the whole program including the parsing
collaborator. The embedding of the program is a total function of `Args`
with no other state, which is exactly the claimed absence of hidden state
or randomness. -/
theorem c9_deterministic (a b : Args) (h : a = b) :
    mainRun a = mainRun b ∧
    programRun a.intensity a.count a.pattern =
      programRun b.intensity b.count b.pattern := by
  subst h
  exact ⟨rfl, rfl⟩

/-- C9 (witness): two identical invocations of `--intensity medium`. -/
theorem c9_witness :
    mainRun { intensity := "medium", count := 1, pattern := none } =
      mainRun { intensity := "medium", count := 1, pattern := none } :=
  (c9_deterministic { intensity := "medium", count := 1, pattern := none }
    { intensity := "medium", count := 1, pattern := none } rfl).1

/-- C10: `--pattern ""` does not trigger pattern mode and raises no
validation error: because line 153 tests Python truthiness, the run with
`pattern = some ""` is identical to the run with no pattern at all, and
with a valid intensity and count it completes single-intensity rendering
with exit code 0. -/
theorem c10_empty_pattern (i : String) (c : ℤ) :
    mainRun { intensity := i, count := c, pattern := some "" } =
      mainRun { intensity := i, count := c, pattern := none } ∧
    (1 ≤ c → i ∈ argparseChoices →
      (mainRun { intensity := i, count := c, pattern := some "" }).exitCode = 0) := by
  constructor
  · by_cases hc : c < 1
    · simp [mainRun, hc]
    · simp [mainRun, hc, singleMode]
  · intro hc hmem
    have hc' : ¬(c < 1) := by omega
    have h0 := (singleMode_ok { intensity := i, count := c, pattern := some "" } hmem).1
    simpa [mainRun, hc'] using h0

/-- C10 (witness): `--intensity medium --count 1 --pattern ""` equals the
patternless run and exits 0. -/
theorem c10_witness :
    mainRun { intensity := "medium", count := 1, pattern := some "" } =
      mainRun { intensity := "medium", count := 1, pattern := none } ∧
    (mainRun { intensity := "medium", count := 1, pattern := some "" }).exitCode = 0 :=
  ⟨(c10_empty_pattern "medium" 1).1,
   (c10_empty_pattern "medium" 1).2 (by decide) (by decide)⟩
